import Mathlib

set_option maxRecDepth 4000

/-!
# Verification of the Huawei solar Modbus data-acquisition core

Shallow embedding of the protocol/data-acquisition engine of the
`n8n-nodes-huaweisolar` repository:

* `src/nodes/utils/modbus-utils.ts` — register codec, connection manager
  (`HuaweiModbusClient.readHoldingRegisters` with retry/backoff and unit-id
  override restoration), address remapping;
* `src/unnamed/part_001` (SUN2000 inverter functions) — typed register
  helpers, alarm decoding, `readInverterData`, `readMultipleInverters`;
* `src/nodes/utils/smartlogger-functions.ts` — discovery read helpers;
* `src/nodes/SUN2000/Sun2000.node.ts` — `parseAddressList`.

JavaScript machine arithmetic is embedded explicitly: the 32-bit signed
wrap-around of `<<` and `|` is modelled on `Int` (`jsToInt32` below), and
the truthiness conventions of the source (`0`, `''`, `undefined`, `null`
falsy; empty arrays truthy) are written out at each use site.
Asynchronous calls that can reject are modelled in the `Except String`
monad; a `.error` value is a rejected promise carrying its message.
-/

namespace HuaweiSolar

/-! ## Register codec (`src/nodes/utils/modbus-utils.ts`) -/

/-- JavaScript `ToUint32`: value of `n` reduced into `[0, 2^32)`. -/
def jsToUint32 (n : Int) : Nat := (n % (2 ^ 32 : Int)).toNat

/-- JavaScript `ToInt32`: value of `n` reduced into `[-2^31, 2^31)`. -/
def jsToInt32 (n : Int) : Int :=
  let m := n % (2 ^ 32 : Int)
  if m < 2 ^ 31 then m else m - 2 ^ 32

/-- JavaScript `a << k`: both operands pass through `ToInt32`, the shift
count is taken mod 32, and the result is a signed 32-bit value. -/
def jsShl (a : Int) (k : Nat) : Int :=
  jsToInt32 (jsToInt32 a * 2 ^ (k % 32))

/-- JavaScript `a | b`: bitwise or of the 32-bit patterns of the operands,
read back as a signed 32-bit value. -/
def jsOr (a b : Int) : Int :=
  jsToInt32 (Int.ofNat (jsToUint32 a ||| jsToUint32 b))

/-- `combineU32RegistersLE(lowWord, highWord)`: the source computes
`(lowWord << 16) | highWord` in JavaScript 32-bit signed arithmetic. -/
def combineU32RegistersLE (lowWord highWord : Int) : Int :=
  jsOr (jsShl lowWord 16) highWord

/-- `combineI32RegistersLE(lowWord, highWord)`: same combination, then a
sign-extension step `combined >= 0x80000000 ? combined - 0x100000000 :
combined`. -/
def combineI32RegistersLE (lowWord highWord : Int) : Int :=
  let combined := jsOr (jsShl lowWord 16) highWord
  if combined ≥ 0x80000000 then combined - 0x100000000 else combined

/-- `toSignedInt16(value)`: reinterpret a 16-bit register word as a signed
integer. -/
def toSignedInt16 (value : Nat) : Int :=
  if value ≥ 0x8000 then (value : Int) - 0x10000 else (value : Int)

/-- `decodeStringRegisters(registers, maxLength)`: each register yields two
ASCII bytes (high byte first); concatenate, truncate to `maxLength`, strip
trailing NUL characters. -/
def decodeStringRegisters (registers : List Nat) (maxLength : Nat) : String :=
  let chars := registers.foldr
    (fun reg acc => Char.ofNat ((reg >>> 8) &&& 0xFF) :: Char.ofNat (reg &&& 0xFF) :: acc) []
  String.mk (((chars.take maxLength).reverse.dropWhile (· = Char.ofNat 0)).reverse)

/-- `parseConnectionStatus(statusValue)` from `modbus-utils.ts`. -/
def parseConnectionStatus (statusValue : Nat) : String :=
  if statusValue = 0xB001 then "Online"
  else if statusValue = 0xB000 then "Offline"
  else "Unknown"

/-- `HuaweiModbusClient.calculateInverterBaseAddress`:
`51000 + (25 * (inverterUnitId - 1))`. -/
def calculateInverterBaseAddress (inverterUnitId : Nat) : Nat :=
  51000 + 25 * (inverterUnitId - 1)

/-- `SUN2000Functions.getRemappedRegister`:
`51000 + (25 * (deviceAddress - 1)) + offset`. -/
def getRemappedRegister (deviceAddress offset : Nat) : Nat :=
  51000 + 25 * (deviceAddress - 1) + offset

/-! ## Connection manager (`HuaweiModbusClient`, `src/nodes/utils/modbus-utils.ts`)

`readHoldingRegisters` is embedded as a state-transition function.  The
mutable state of the `modbus-serial` client is its active unit id (set via
`setID`) together with the connection flag (`isConnected && client.isOpen`
collapsed into one boolean).  The transport is an oracle giving the outcome
of `connectTCP` and of each `client.readHoldingRegisters` attempt; a
`.error` outcome is a thrown/rejected transport call carrying its message.
The embedding additionally records the number of transport attempts made
and the list of backoff delays (in milliseconds) awaited, so that the retry
schedule is a provable property. -/

/-- `ModbusConnectionConfig` from `modbus-utils.ts`. -/
structure ModbusConnectionConfig where
  host : String
  port : Nat
  unitId : Nat
  timeout : Nat
  retries : Nat

/-- `ModbusReadResult<T>` from `modbus-utils.ts`. -/
structure ModbusReadResult (α : Type) where
  success : Bool
  data : Option α := none
  error : Option String := none
deriving DecidableEq

/-- Mutable state of the wrapped `modbus-serial` client: the active unit id
(last `setID`) and whether the session is open. -/
structure ClientState where
  activeId : Nat
  connected : Bool
deriving DecidableEq

/-- Transport oracle: outcome of a `connectTCP` call and of the `n`-th
`client.readHoldingRegisters` transport attempt of this call. -/
structure Transport where
  connectOk : Bool
  attempt : Nat → Except String (List Nat)

/-- Observable outcome of one `readHoldingRegisters` call: the returned
result, the final client state, the number of transport attempts made, and
the backoff delays awaited between consecutive attempts. -/
structure RHROut where
  res : ModbusReadResult (List Nat)
  st : ClientState
  attempts : Nat
  waits : List Nat

/-- The retry loop of `readHoldingRegisters` (lines 153–171): `fuel` is the
number of retries still allowed (`config.retries - attempt`); on success or
on the final failed attempt the unit id is reset to the configured default
when an override was supplied; between consecutive attempts the code awaits
`Math.pow(2, attempt) * 100` milliseconds. -/
def rhrLoop (cfg : ModbusConnectionConfig) (tr : Transport) (unitId : Option Nat)
    (st : ClientState) (attempt fuel : Nat) : RHROut :=
  match tr.attempt attempt with
  | .ok data =>
      let st' := if unitId.isSome then { st with activeId := cfg.unitId } else st
      ⟨{ success := true, data := some data, error := none }, st', 1, []⟩
  | .error msg =>
      match fuel with
      | 0 =>
          let st' := if unitId.isSome then { st with activeId := cfg.unitId } else st
          ⟨{ success := false, data := none,
             error := some ("Failed after " ++ toString (cfg.retries + 1) ++
                            " attempts: " ++ msg) },
           st', 1, []⟩
      | fuel' + 1 =>
          let out := rhrLoop cfg tr unitId st (attempt + 1) fuel'
          ⟨out.res, out.st, out.attempts + 1, (2 ^ attempt * 100) :: out.waits⟩

/-- `HuaweiModbusClient.readHoldingRegisters(address, count, unitId?)`
(lines 134–179): reconnect if not connected (failing fast when the
reconnect fails), apply the unit-id override, run the retry loop.  The
`address` and `count` arguments are carried for shape; the transport oracle
absorbs them. -/
def readHoldingRegistersClient (cfg : ModbusConnectionConfig) (tr : Transport)
    (st : ClientState) (address count : Nat) (unitId : Option Nat) : RHROut :=
  if st.connected then
    let st1 := match unitId with
      | some u => { st with activeId := u }
      | none => st
    rhrLoop cfg tr unitId st1 0 cfg.retries
  else if tr.connectOk then
    let st0 : ClientState := { st with connected := true }
    let st1 := match unitId with
      | some u => { st0 with activeId := u }
      | none => st0
    rhrLoop cfg tr unitId st1 0 cfg.retries
  else
    ⟨{ success := false, data := none, error := some "Failed to connect to Modbus device" },
     st, 0, []⟩

/-! ## Typed register helpers over a client oracle

The SUN2000 and SmartLogger layers call `HuaweiModbusClient` methods that
never throw for expected protocol failures (they return a
`ModbusReadResult`), but each `await` of the wrapped external library can
in principle reject; the enclosing `try`/`catch` blocks of the callers are
written for exactly that case.  A client call is therefore modelled as an
oracle `address → count → unitId → Except String (ModbusReadResult _)`,
where `.error msg` is a rejected call.  Every SUN2000/SmartLogger call site
supplies an explicit unit id, so the oracle takes it as a plain `Nat`. -/

/-- Outcome oracle for `client.readHoldingRegisters(address, count, unitId)`
as observed by the SUN2000/SmartLogger layers. -/
def Client : Type := Nat → Nat → Nat → Except String (ModbusReadResult (List Nat))

/-- `HuaweiModbusClient.readU16` (lines 184–190). -/
def readU16 (client : Client) (address unitId : Nat) :
    Except String (ModbusReadResult Nat) := do
  let result ← client address 1 unitId
  if result.success = false ∨ result.data = none ∨ (result.data.getD []).length = 0 then
    pure { success := false, error := result.error }
  else
    pure { success := true, data := some ((result.data.getD []).headD 0) }

/-- `HuaweiModbusClient.readI16` (lines 195–201): `readU16` then
`toSignedInt16`; a failed result is passed through unchanged. -/
def readI16 (client : Client) (address unitId : Nat) :
    Except String (ModbusReadResult Int) := do
  let result ← readU16 client address unitId
  if result.success = false ∨ result.data = none then
    pure { success := result.success, data := none, error := result.error }
  else
    pure { success := true, data := some (toSignedInt16 (result.data.getD 0)) }

/-- `HuaweiModbusClient.readU32` (lines 206–212): two registers combined
with `combineU32RegistersLE`. -/
def readU32 (client : Client) (address unitId : Nat) :
    Except String (ModbusReadResult Int) := do
  let result ← client address 2 unitId
  if result.success = false ∨ result.data = none ∨ (result.data.getD []).length < 2 then
    pure { success := false, error := result.error }
  else
    pure { success := true,
           data := some (combineU32RegistersLE ((result.data.getD []).getD 0 0)
                                               ((result.data.getD []).getD 1 0)) }

/-- `HuaweiModbusClient.readI32` (lines 217–223). -/
def readI32 (client : Client) (address unitId : Nat) :
    Except String (ModbusReadResult Int) := do
  let result ← client address 2 unitId
  if result.success = false ∨ result.data = none ∨ (result.data.getD []).length < 2 then
    pure { success := false, error := result.error }
  else
    pure { success := true,
           data := some (combineI32RegistersLE ((result.data.getD []).getD 0 0)
                                               ((result.data.getD []).getD 1 0)) }

/-- `HuaweiModbusClient.readString` (lines 228–234). -/
def readString (client : Client) (address count maxLength unitId : Nat) :
    Except String (ModbusReadResult String) := do
  let result ← client address count unitId
  if result.success = false ∨ result.data = none then
    pure { success := false, error := result.error }
  else
    pure { success := true,
           data := some (decodeStringRegisters (result.data.getD []) maxLength) }

/-! ## SUN2000 alarm tables and alarm decoding (`src/unnamed/part_001`)

`readAlarms` (lines 404–471) reads registers 32008–32010 and pushes one
formatted string per set bit, bit 0 to bit 15 of alarm register 1, then of
register 2, then of register 3.  The push sequence is embedded as a
concatenation of singleton lists in the same order. -/

/-- The sixteen formatted strings pushed for alarm register 1, in bit
order. -/
def alarmTable1 : List String :=
  ["High String Input Voltage (Major)", "DC Arc Fault (Major)",
   "String Reverse Connection (Major)", "String Current Backfeed (Warning)",
   "Abnormal String Power (Warning)", "AFCI Self-Check Fail (Major)",
   "Phase Wire Short-Circuited to PE (Major)", "Grid Loss (Major)",
   "Grid Undervoltage (Major)", "Grid Overvoltage (Major)",
   "Grid Voltage Imbalance (Major)", "Grid Overfrequency (Major)",
   "Grid Underfrequency (Major)", "Unstable Grid Frequency (Major)",
   "Output Overcurrent (Major)", "Output DC Component Overhigh (Major)"]

/-- The sixteen formatted strings pushed for alarm register 2, in bit
order. -/
def alarmTable2 : List String :=
  ["Abnormal Residual Current (Major)", "Abnormal Grounding (Major)",
   "Low Insulation Resistance (Major)", "Overtemperature (Minor)",
   "Device Fault (Major)", "Upgrade Failed or Version Mismatch (Minor)",
   "License Expired (Warning)", "Faulty Monitoring Unit (Minor)",
   "Faulty Power Collector (Major)", "Battery Abnormal (Minor)",
   "Active Islanding (Major)", "Passive Islanding (Major)",
   "Transient AC Overvoltage (Major)", "Peripheral Port Short Circuit (Warning)",
   "Churn Output Overload (Major)", "Abnormal PV Module Configuration (Major)"]

/-- The sixteen formatted strings pushed for alarm register 3, in bit
order. -/
def alarmTable3 : List String :=
  ["Optimizer Fault (Warning)", "Built-in PID Operation Abnormal (Minor)",
   "High Input String Voltage to Ground (Major)", "External Fan Abnormal (Major)",
   "Battery Reverse Connection (Major)", "On-grid/Off-grid Controller Abnormal (Major)",
   "PV String Loss (Warning)", "Internal Fan Abnormal (Major)",
   "DC Protection Unit Abnormal (Major)", "EL Unit Abnormal (Minor)",
   "Active Adjustment Instruction Abnormal (Major)",
   "Reactive Adjustment Instruction Abnormal (Major)",
   "CT Wiring Abnormal (Major)",
   "DC Arc Fault (ADMC - Manual Clear Required) (Major)",
   "DC Switch Abnormal (Minor)", "Low Battery Discharge Capacity (Warning)"]

/-- The `if (alarm & (1 << k)) alarmTexts.push(s)` chain for one register,
starting at bit `k`: one singleton per set bit, in ascending bit order. -/
def alarmChain (a : Nat) : Nat → List String → List String
  | _, [] => []
  | k, s :: rest =>
      (if a &&& (1 <<< k) ≠ 0 then [s] else []) ++ alarmChain a (k + 1) rest

/-- The decoded alarm-text list built by `readAlarms` from the three raw
alarm words: register 1's chain, then register 2's, then register 3's. -/
def alarmTextsOf (alarm1 alarm2 alarm3 : Nat) : List String :=
  alarmChain alarm1 0 alarmTable1 ++ alarmChain alarm2 0 alarmTable2 ++
    alarmChain alarm3 0 alarmTable3

/-- Specification-side formulation (spec §4.5): for every set bit of each
register, in ascending bit position, the table entry for that bit; the
three registers processed in fixed order 1→2→3. -/
def alarmTextsSpec (alarm1 alarm2 alarm3 : Nat) : List String :=
  (((List.range 16).filter alarm1.testBit).map (fun i => alarmTable1.getD i "")) ++
  (((List.range 16).filter alarm2.testBit).map (fun i => alarmTable2.getD i "")) ++
  (((List.range 16).filter alarm3.testBit).map (fun i => alarmTable3.getD i ""))

/-! ## SUN2000 inverter data record and helpers (`src/unnamed/part_001`)

The canonical per-device output record.  Absent fields are `none`; the
source only ever assigns a field after a successful read, so `Option` is
the presence model (spec §9 "Dynamic field presence").  Scaled values are
modelled in `ℚ` (exact quotients of register integers by the gain
factors); the claims verified here depend only on field presence and on
exactly representable values.  The IEC 61850 key-renaming toggle is
cosmetic (spec §1 excludes it) and is embedded in its default `false`
position, i.e. with the descriptive field names. -/

/-- One PV string entry produced by `readPVStrings` (non-IEC keys). -/
structure PVString where
  stringNumber : Nat
  voltage : ℚ
  current : ℚ
  power : ℚ
deriving DecidableEq

/-- `SUN2000InverterData`: the canonical output record of
`readInverterData`. -/
structure InverterRecord where
  unitId : Nat
  deviceName : Option String := none
  model : Option String := none
  serialNumber : Option String := none
  firmwareVersion : Option String := none
  numberOfStrings : Option Nat := none
  ratedPower : Option ℚ := none
  activePower : Option ℚ := none
  reactivePower : Option ℚ := none
  inputPower : Option ℚ := none
  powerFactor : Option ℚ := none
  efficiency : Option ℚ := none
  peakPowerToday : Option ℚ := none
  dailyEnergyYield : Option ℚ := none
  totalEnergyYield : Option ℚ := none
  gridVoltageUAB : Option ℚ := none
  gridVoltageUBC : Option ℚ := none
  gridVoltageUCA : Option ℚ := none
  phaseAVoltage : Option ℚ := none
  phaseBVoltage : Option ℚ := none
  phaseCVoltage : Option ℚ := none
  phaseACurrent : Option ℚ := none
  phaseBCurrent : Option ℚ := none
  phaseCCurrent : Option ℚ := none
  gridFrequency : Option ℚ := none
  pvStrings : Option (List PVString) := none
  deviceStatus : Option Nat := none
  deviceStatusText : Option String := none
  runningStatus : Option Nat := none
  internalTemperature : Option ℚ := none
  insulationResistance : Option ℚ := none
  alarm1 : Option Nat := none
  alarm2 : Option Nat := none
  alarm3 : Option Nat := none
  alarmTexts : Option (List String) := none
  faultCode : Option Nat := none
  dcCurrent : Option ℚ := none
  status : Option Nat := none
  cabinetTemperature : Option ℚ := none
  majorFault : Option Int := none
  minorFault : Option Int := none
  warning : Option Int := none
  error : Option String := none
deriving DecidableEq

/-- `readDeviceModel` (register 30000, 15 registers, max length 30):
`result.success ? result.data! : null`. -/
def readDeviceModel (client : Client) (deviceAddress : Nat) :
    Except String (Option String) := do
  let result ← readString client 30000 15 30 deviceAddress
  pure (if result.success then result.data else none)

/-- `readSerialNumber` (register 30015, 10 registers, max length 20). -/
def readSerialNumber (client : Client) (deviceAddress : Nat) :
    Except String (Option String) := do
  let result ← readString client 30015 10 20 deviceAddress
  pure (if result.success then result.data else none)

/-- `readFirmwareVersion` (register 31025, 15 registers, max length 30). -/
def readFirmwareVersion (client : Client) (deviceAddress : Nat) :
    Except String (Option String) := do
  let result ← readString client 31025 15 30 deviceAddress
  pure (if result.success then result.data else none)

/-- `readNumberOfStrings` (register 30071, U16). -/
def readNumberOfStrings (client : Client) (deviceAddress : Nat) :
    Except String (Option Nat) := do
  let result ← readU16 client 30071 deviceAddress
  pure (if result.success then result.data else none)

/-- `readRatedPower` (register 30073, U32, gain 1000). -/
def readRatedPower (client : Client) (deviceAddress : Nat) :
    Except String (Option ℚ) := do
  let result ← readU32 client 30073 deviceAddress
  pure (if result.success then result.data.map (fun v => (v : ℚ) / 1000) else none)

/-- `readPeakPowerToday` (register 32078, I32, gain 1000). -/
def readPeakPowerToday (client : Client) (deviceAddress : Nat) :
    Except String (Option ℚ) := do
  let result ← readI32 client 32078 deviceAddress
  pure (if result.success then result.data.map (fun v => (v : ℚ) / 1000) else none)

/-- `readDailyEnergyYield` (register 32114, U32, gain 100). -/
def readDailyEnergyYield (client : Client) (deviceAddress : Nat) :
    Except String (Option ℚ) := do
  let result ← readU32 client 32114 deviceAddress
  pure (if result.success then result.data.map (fun v => (v : ℚ) / 100) else none)

/-- `readTotalEnergyYield` (register 32106, U32, gain 100). -/
def readTotalEnergyYield (client : Client) (deviceAddress : Nat) :
    Except String (Option ℚ) := do
  let result ← readU32 client 32106 deviceAddress
  pure (if result.success then result.data.map (fun v => (v : ℚ) / 100) else none)

/-- `readEfficiency` (register 32086, U16, gain 100). -/
def readEfficiency (client : Client) (deviceAddress : Nat) :
    Except String (Option ℚ) := do
  let result ← readU16 client 32086 deviceAddress
  pure (if result.success then result.data.map (fun v => (v : ℚ) / 100) else none)

/-- Result shape of the grid-voltage helpers: three optional values. -/
structure TripleQ where
  a : Option ℚ := none
  b : Option ℚ := none
  c : Option ℚ := none

/-- `readGridLineVoltages` (registers 32066–32068, U16, gain 10). -/
def readGridLineVoltages (client : Client) (deviceAddress : Nat) :
    Except String TripleQ := do
  let result ← client 32066 3 deviceAddress
  if result.success = false ∨ result.data = none ∨ (result.data.getD []).length < 3 then
    pure {}
  else
    let d := result.data.getD []
    pure { a := some ((d.getD 0 0 : ℚ) / 10), b := some ((d.getD 1 0 : ℚ) / 10),
           c := some ((d.getD 2 0 : ℚ) / 10) }

/-- `readGridPhaseVoltages` (registers 32069–32071, U16, gain 10). -/
def readGridPhaseVoltages (client : Client) (deviceAddress : Nat) :
    Except String TripleQ := do
  let result ← client 32069 3 deviceAddress
  if result.success = false ∨ result.data = none ∨ (result.data.getD []).length < 3 then
    pure {}
  else
    let d := result.data.getD []
    pure { a := some ((d.getD 0 0 : ℚ) / 10), b := some ((d.getD 1 0 : ℚ) / 10),
           c := some ((d.getD 2 0 : ℚ) / 10) }

/-- `readGridPhaseCurrents` (registers 32072–32077, I32 pairs, gain
1000). -/
def readGridPhaseCurrents (client : Client) (deviceAddress : Nat) :
    Except String TripleQ := do
  let result ← client 32072 6 deviceAddress
  if result.success = false ∨ result.data = none ∨ (result.data.getD []).length < 6 then
    pure {}
  else
    let d := result.data.getD []
    pure { a := some ((combineI32RegistersLE (d.getD 0 0) (d.getD 1 0) : ℚ) / 1000),
           b := some ((combineI32RegistersLE (d.getD 2 0) (d.getD 3 0) : ℚ) / 1000),
           c := some ((combineI32RegistersLE (d.getD 4 0) (d.getD 5 0) : ℚ) / 1000) }

/-- `readGridFrequency` (register 32085, U16, gain 100). -/
def readGridFrequency (client : Client) (deviceAddress : Nat) :
    Except String (Option ℚ) := do
  let result ← readU16 client 32085 deviceAddress
  pure (if result.success then result.data.map (fun v => (v : ℚ) / 100) else none)

/-- One batch's worth of PV string entries (`readPVStrings` inner loop,
lines 314–332): for each `j < remainingStrings` whose register pair lies
inside the returned data, voltage (gain 10), current (gain 100) and the
derived power `voltage * current`. -/
def pvBatch (data : List Nat) (remainingStrings i : Nat) : List PVString :=
  (List.range remainingStrings).filterMap fun j =>
    let voltageIndex := j * 2
    let currentIndex := j * 2 + 1
    if voltageIndex < data.length ∧ currentIndex < data.length then
      let voltage := (toSignedInt16 (data.getD voltageIndex 0) : ℚ) / 10
      let current := (toSignedInt16 (data.getD currentIndex 0) : ℚ) / 100
      some { stringNumber := i + j + 1, voltage := voltage, current := current,
             power := voltage * current }
    else none

/-- The batched read loop of `readPVStrings` (lines 306–334): batches of at
most 10 strings (20 registers) starting at register `32016 + i * 2`; a
failed batch read contributes nothing. -/
def pvLoop (client : Client) (deviceAddress stringCount i : Nat) :
    Except String (List PVString) :=
  if _h : i < stringCount then do
    let remainingStrings := min 10 (stringCount - i)
    let result ← client (32016 + i * 2) (remainingStrings * 2) deviceAddress
    let batch := if result.success then pvBatch (result.data.getD []) remainingStrings i
                 else []
    let rest ← pvLoop client deviceAddress stringCount (i + 10)
    pure (batch ++ rest)
  else
    pure ([] : List PVString)
termination_by stringCount - i

/-- `readPVStrings(deviceAddress, stringCount?)` (lines 287–337): a missing
or zero string count (JavaScript `!stringCount`) triggers auto-detection
via `readNumberOfStrings` with a fallback of 4; the count is clamped to
24. -/
def readPVStrings (client : Client) (deviceAddress : Nat) (stringCount : Option Nat) :
    Except String (List PVString) := do
  let detected ←
    if stringCount = none ∨ stringCount = some 0 then do
      let detectedStringCount ← readNumberOfStrings client deviceAddress
      match detectedStringCount with
      | some n => pure (if n > 0 then n else 4)
      | none => pure 4
    else
      pure (stringCount.getD 0)
  pvLoop client deviceAddress (min detected 24) 0

/-- `readDeviceStatus`'s status-code-to-text table (lines 357–364),
including the hexadecimal rendering of unknown codes. -/
def deviceStatusText (code : Nat) : String :=
  if code = 0x0000 then "Standby: initializing"
  else if code = 0x0200 then "On-grid"
  else if code = 0x0201 then "Grid connection: power limited"
  else if code = 0x0300 then "Shutdown: fault"
  else if code = 0x0500 then "Spot-check ready"
  else "Unknown status (0x" ++ String.map Char.toUpper (String.mk (Nat.toDigits 16 code)) ++ ")"

/-- Result shape of `readDeviceStatus`: optional code and text. -/
structure DeviceStatusResult where
  code : Option Nat := none
  text : Option String := none

/-- `readDeviceStatus` (register 32089, ENUM16, lines 347–367). -/
def readDeviceStatus (client : Client) (deviceAddress : Nat) :
    Except String DeviceStatusResult := do
  let result ← readU16 client 32089 deviceAddress
  if result.success = false ∨ result.data = none then
    pure {}
  else
    let code := result.data.getD 0
    pure { code := some code, text := some (deviceStatusText code) }

/-- `readRunningStatus` (register 32002, Bitfield16). -/
def readRunningStatus (client : Client) (deviceAddress : Nat) :
    Except String (Option Nat) := do
  let result ← readU16 client 32002 deviceAddress
  pure (if result.success then result.data else none)

/-- `readInternalTemperature` (register 32087, I16, gain 10). -/
def readInternalTemperature (client : Client) (deviceAddress : Nat) :
    Except String (Option ℚ) := do
  let result ← readI16 client 32087 deviceAddress
  pure (if result.success then result.data.map (fun v => (v : ℚ) / 10) else none)

/-- `readInsulationResistanceDirect` (register 32088, U16, gain 1000). -/
def readInsulationResistanceDirect (client : Client) (deviceAddress : Nat) :
    Except String (Option ℚ) := do
  let result ← readU16 client 32088 deviceAddress
  pure (if result.success then result.data.map (fun v => (v : ℚ) / 1000) else none)

/-- Result shape of `readAlarms`: the three optional raw words and the
optional decoded list. -/
structure AlarmsResult where
  alarm1 : Option Nat := none
  alarm2 : Option Nat := none
  alarm3 : Option Nat := none
  alarmTexts : Option (List String) := none

/-- `readAlarms` (registers 32008–32010, lines 404–471): on a successful
3-register read, the raw words plus the decoded text list; otherwise an
empty result. -/
def readAlarms (client : Client) (deviceAddress : Nat) :
    Except String AlarmsResult := do
  let result ← client 32008 3 deviceAddress
  if result.success = false ∨ result.data = none ∨ (result.data.getD []).length < 3 then
    pure {}
  else
    let d := result.data.getD []
    pure { alarm1 := some (d.getD 0 0), alarm2 := some (d.getD 1 0),
           alarm3 := some (d.getD 2 0),
           alarmTexts := some (alarmTextsOf (d.getD 0 0) (d.getD 1 0) (d.getD 2 0)) }

/-- `readFaultCode` (register 32090, U16). -/
def readFaultCode (client : Client) (deviceAddress : Nat) :
    Except String (Option Nat) := do
  let result ← readU16 client 32090 deviceAddress
  pure (if result.success then result.data else none)

/-- `readRemappedData(result, deviceAddress)` (lines 621–685): the
backward-compatible base-telemetry pass over the remap block, all reads at
unit id 0.  Its own `try`/`catch` swallows any thrown error, so the record
as mutated up to the throw point is returned; each read's field merges are
guarded by its success checks. -/
def readRemappedData (client : Client) (deviceAddress : Nat)
    (result : InverterRecord) : InverterRecord :=
  match client (getRemappedRegister deviceAddress 0) 9 0 with
  | .error _ => result
  | .ok powerResult =>
    let result :=
      if powerResult.success = true ∧ powerResult.data ≠ none ∧
          (powerResult.data.getD []).length ≥ 9 then
        let registers := powerResult.data.getD []
        { result with
          activePower :=
            some ((combineI32RegistersLE (registers.getD 0 0) (registers.getD 1 0) : ℚ) / 1000),
          reactivePower :=
            some ((combineI32RegistersLE (registers.getD 2 0) (registers.getD 3 0) : ℚ) / 1000),
          dcCurrent := some ((toSignedInt16 (registers.getD 4 0) : ℚ) / 100),
          inputPower :=
            some ((combineU32RegistersLE (registers.getD 5 0) (registers.getD 6 0) : ℚ) / 1000),
          powerFactor := some ((toSignedInt16 (registers.getD 8 0) : ℚ) / 1000) }
      else result
    match readU16 client (getRemappedRegister deviceAddress 9) 0 with
    | .error _ => result
    | .ok statusResult =>
      let result :=
        if statusResult.success = true then { result with status := statusResult.data }
        else result
      match readI16 client (getRemappedRegister deviceAddress 11) 0 with
      | .error _ => result
      | .ok tempResult =>
        let result :=
          if tempResult.success = true then
            { result with cabinetTemperature := tempResult.data.map (fun v => (v : ℚ) / 10) }
          else result
        match client (getRemappedRegister deviceAddress 12) 6 0 with
        | .error _ => result
        | .ok faultResult =>
          if faultResult.success = true ∧ faultResult.data ≠ none ∧
              (faultResult.data.getD []).length ≥ 6 then
            let faultRegisters := faultResult.data.getD []
            { result with
              majorFault :=
                some (combineU32RegistersLE (faultRegisters.getD 0 0) (faultRegisters.getD 1 0)),
              minorFault :=
                some (combineU32RegistersLE (faultRegisters.getD 2 0) (faultRegisters.getD 3 0)),
              warning :=
                some (combineU32RegistersLE (faultRegisters.getD 4 0) (faultRegisters.getD 5 0)) }
          else result

/-- The `device` category block of `readInverterData` (lines 512–526): the
five identity reads (a rejection of any rejects the whole block, as with
`Promise.all`, taken in argument order), then the truthiness-guarded merges
(`if (model)` — a string is merged only when non-empty; numbers are merged
when not null). -/
def deviceCategoryStep (client : Client) (deviceAddress : Nat)
    (categories : List String) (result : InverterRecord) :
    Except String InverterRecord :=
  if categories.contains "device" then do
    let model ← readDeviceModel client deviceAddress
    let serialNumber ← readSerialNumber client deviceAddress
    let firmwareVersion ← readFirmwareVersion client deviceAddress
    let numberOfStrings ← readNumberOfStrings client deviceAddress
    let ratedPower ← readRatedPower client deviceAddress
    let result := match model with
      | some m => if m = "" then result else { result with model := some m }
      | none => result
    let result := match serialNumber with
      | some s => if s = "" then result else { result with serialNumber := some s }
      | none => result
    let result := match firmwareVersion with
      | some s => if s = "" then result else { result with firmwareVersion := some s }
      | none => result
    let result := match numberOfStrings with
      | some n => { result with numberOfStrings := some n }
      | none => result
    let result := match ratedPower with
      | some p => { result with ratedPower := some p }
      | none => result
    pure result
  else
    pure result

/-- The `power` category block of `readInverterData` (lines 529–541). -/
def powerCategoryStep (client : Client) (deviceAddress : Nat)
    (categories : List String) (result : InverterRecord) :
    Except String InverterRecord :=
  if categories.contains "power" then do
    let peakPowerToday ← readPeakPowerToday client deviceAddress
    let dailyEnergyYield ← readDailyEnergyYield client deviceAddress
    let totalEnergyYield ← readTotalEnergyYield client deviceAddress
    let efficiency ← readEfficiency client deviceAddress
    let result := match peakPowerToday with
      | some v => { result with peakPowerToday := some v }
      | none => result
    let result := match dailyEnergyYield with
      | some v => { result with dailyEnergyYield := some v }
      | none => result
    let result := match totalEnergyYield with
      | some v => { result with totalEnergyYield := some v }
      | none => result
    let result := match efficiency with
      | some v => { result with efficiency := some v }
      | none => result
    pure result
  else
    pure result

/-- The `voltages` category block of `readInverterData` (lines 544–556). -/
def voltagesCategoryStep (client : Client) (deviceAddress : Nat)
    (categories : List String) (result : InverterRecord) :
    Except String InverterRecord :=
  if categories.contains "voltages" then do
    let lineVoltages ← readGridLineVoltages client deviceAddress
    let phaseVoltages ← readGridPhaseVoltages client deviceAddress
    let result := match lineVoltages.a with
      | some v => { result with gridVoltageUAB := some v }
      | none => result
    let result := match lineVoltages.b with
      | some v => { result with gridVoltageUBC := some v }
      | none => result
    let result := match lineVoltages.c with
      | some v => { result with gridVoltageUCA := some v }
      | none => result
    let result := match phaseVoltages.a with
      | some v => { result with phaseAVoltage := some v }
      | none => result
    let result := match phaseVoltages.b with
      | some v => { result with phaseBVoltage := some v }
      | none => result
    let result := match phaseVoltages.c with
      | some v => { result with phaseCVoltage := some v }
      | none => result
    pure result
  else
    pure result

/-- The `currents` category block of `readInverterData` (lines 559–569). -/
def currentsCategoryStep (client : Client) (deviceAddress : Nat)
    (categories : List String) (result : InverterRecord) :
    Except String InverterRecord :=
  if categories.contains "currents" then do
    let phaseCurrents ← readGridPhaseCurrents client deviceAddress
    let gridFrequency ← readGridFrequency client deviceAddress
    let result := match phaseCurrents.a with
      | some v => { result with phaseACurrent := some v }
      | none => result
    let result := match phaseCurrents.b with
      | some v => { result with phaseBCurrent := some v }
      | none => result
    let result := match phaseCurrents.c with
      | some v => { result with phaseCCurrent := some v }
      | none => result
    let result := match gridFrequency with
      | some v => { result with gridFrequency := some v }
      | none => result
    pure result
  else
    pure result

/-- The `strings` category block of `readInverterData` (lines 572–577):
`readPVStrings` receives the possibly-merged `result.numberOfStrings`; an
empty list is not merged. -/
def stringsCategoryStep (client : Client) (deviceAddress : Nat)
    (categories : List String) (result : InverterRecord) :
    Except String InverterRecord :=
  if categories.contains "strings" then do
    let pvStrings ← readPVStrings client deviceAddress result.numberOfStrings
    pure (if pvStrings.length > 0 then { result with pvStrings := some pvStrings }
          else result)
  else
    pure result

/-- The `status` category block of `readInverterData` (lines 580–593);
`deviceStatus.text` is merged under JavaScript truthiness (non-empty). -/
def statusCategoryStep (client : Client) (deviceAddress : Nat)
    (categories : List String) (result : InverterRecord) :
    Except String InverterRecord :=
  if categories.contains "status" then do
    let deviceStatus ← readDeviceStatus client deviceAddress
    let runningStatus ← readRunningStatus client deviceAddress
    let internalTemp ← readInternalTemperature client deviceAddress
    let insulationResistance ← readInsulationResistanceDirect client deviceAddress
    let result := match deviceStatus.code with
      | some c => { result with deviceStatus := some c }
      | none => result
    let result := match deviceStatus.text with
      | some t => if t = "" then result else { result with deviceStatusText := some t }
      | none => result
    let result := match runningStatus with
      | some v => { result with runningStatus := some v }
      | none => result
    let result := match internalTemp with
      | some v => { result with internalTemperature := some v }
      | none => result
    let result := match insulationResistance with
      | some v => { result with insulationResistance := some v }
      | none => result
    pure result
  else
    pure result

/-- The `alarms` category block of `readInverterData` (lines 596–609): the
raw alarm words merge when present; `alarmTexts` merges when the toggle is
set or the decoded list is non-empty (`alarms.alarmTexts &&
alarms.alarmTexts.length > 0` — an empty array is truthy but has length
0), the merged value being `alarms.alarmTexts || []`. -/
def alarmsCategoryStep (client : Client) (deviceAddress : Nat)
    (categories : List String) (alwaysIncludeAlarmTexts : Bool)
    (result : InverterRecord) : Except String InverterRecord :=
  if categories.contains "alarms" then do
    let alarms ← readAlarms client deviceAddress
    let faultCode ← readFaultCode client deviceAddress
    let result := match alarms.alarm1 with
      | some v => { result with alarm1 := some v }
      | none => result
    let result := match alarms.alarm2 with
      | some v => { result with alarm2 := some v }
      | none => result
    let result := match alarms.alarm3 with
      | some v => { result with alarm3 := some v }
      | none => result
    let result :=
      if alwaysIncludeAlarmTexts = true ∨
          (∃ l, alarms.alarmTexts = some l ∧ l.length > 0) then
        { result with alarmTexts := some (alarms.alarmTexts.getD []) }
      else result
    let result := match faultCode with
      | some v => { result with faultCode := some v }
      | none => result
    pure result
  else
    pure result

/-- The default category list (line 509). -/
def defaultCategories : List String :=
  ["device", "power", "voltages", "currents", "strings", "status", "alarms"]

/-- `readInverterData(deviceAddress, deviceName?, dataCategories?,
alwaysIncludeAlarmTexts?)` (lines 498–616): identity fields, the always-run
remapped pass, then the seven category blocks inside one `try`; a rejection
in a category block is caught and attaches its message as the `error` field
of the record as merged so far. -/
def readInverterData (client : Client) (deviceAddress : Nat)
    (deviceName : Option String) (dataCategories : Option (List String))
    (alwaysIncludeAlarmTexts : Bool) : InverterRecord :=
  let result : InverterRecord := { unitId := deviceAddress, deviceName := deviceName }
  let result := readRemappedData client deviceAddress result
  let categories := dataCategories.getD defaultCategories
  match deviceCategoryStep client deviceAddress categories result with
  | .error msg => { result with error := some msg }
  | .ok result =>
  match powerCategoryStep client deviceAddress categories result with
  | .error msg => { result with error := some msg }
  | .ok result =>
  match voltagesCategoryStep client deviceAddress categories result with
  | .error msg => { result with error := some msg }
  | .ok result =>
  match currentsCategoryStep client deviceAddress categories result with
  | .error msg => { result with error := some msg }
  | .ok result =>
  match stringsCategoryStep client deviceAddress categories result with
  | .error msg => { result with error := some msg }
  | .ok result =>
  match statusCategoryStep client deviceAddress categories result with
  | .error msg => { result with error := some msg }
  | .ok result =>
  match alarmsCategoryStep client deviceAddress categories alwaysIncludeAlarmTexts result with
  | .error msg => { result with error := some msg }
  | .ok result => result

/-- One entry of the device list passed to `readMultipleInverters`. -/
structure DeviceSpec where
  unitId : Nat
  deviceAddress : Nat
  deviceName : Option String := none
deriving DecidableEq

/-- `readMultipleInverters(devices, ...)` (lines 691–718): devices are
processed strictly in order; the per-device call to `readInverterData` is
an awaited asynchronous call, modelled as the possibly-rejecting parameter
`readInverter`; a rejection is converted in place into the error record
`{unitId, deviceName, error}`. -/
def readMultipleInverters (readInverter : DeviceSpec → Except String InverterRecord) :
    List DeviceSpec → List InverterRecord
  | [] => []
  | device :: rest =>
      (match readInverter device with
       | .ok inverterData => inverterData
       | .error msg =>
           { unitId := device.unitId, deviceName := device.deviceName,
             error := some msg }) ::
      readMultipleInverters readInverter rest

/-! ## SmartLogger discovery helpers
(`src/nodes/utils/smartlogger-functions.ts`, lines 364–398)

Each helper selects its target with `const targetUnitId = unitId ||
this.unitId`: JavaScript `||` treats both `undefined` and `0` as absent. -/

/-- `unitId || this.unitId`: an absent or zero override falls back to the
configured default unit id of the `SmartLoggerFunctions` instance. -/
def smartTargetUnitId (unitId : Option Nat) (selfUnitId : Nat) : Nat :=
  match unitId with
  | none => selfUnitId
  | some u => if u = 0 then selfUnitId else u

/-- `SmartLoggerFunctions.readDeviceName(unitId?)` (registers 65524–65533,
20-byte string). -/
def readDeviceName (client : Client) (selfUnitId : Nat) (unitId : Option Nat) :
    Except String (Option String) := do
  let targetUnitId := smartTargetUnitId unitId selfUnitId
  let result ← readString client 65524 10 20 targetUnitId
  pure (if result.success then result.data else none)

/-- `SmartLoggerFunctions.readConnectionStatus(unitId?)` (register
65534). -/
def readConnectionStatus (client : Client) (selfUnitId : Nat) (unitId : Option Nat) :
    Except String (Option String) := do
  let targetUnitId := smartTargetUnitId unitId selfUnitId
  let result ← readU16 client 65534 targetUnitId
  pure (if result.success then some (parseConnectionStatus (result.data.getD 0)) else none)

/-- `SmartLoggerFunctions.readDeviceAddress(unitId?)` (register 65523). -/
def readDeviceAddress (client : Client) (selfUnitId : Nat) (unitId : Option Nat) :
    Except String (Option Nat) := do
  let targetUnitId := smartTargetUnitId unitId selfUnitId
  let result ← readU16 client 65523 targetUnitId
  pure (if result.success then result.data else none)

/-- `SmartLoggerFunctions.readPortNumber(unitId?)` (register 65522). -/
def readPortNumber (client : Client) (selfUnitId : Nat) (unitId : Option Nat) :
    Except String (Option Nat) := do
  let targetUnitId := smartTargetUnitId unitId selfUnitId
  let result ← readU16 client 65522 targetUnitId
  pure (if result.success then result.data else none)

/-! ## Address-list parsing (`Sun2000.parseAddressList`,
`src/nodes/SUN2000/Sun2000.node.ts` lines 351–376)

The tokens pass through JavaScript's `Number()`.  `jsNumberQ` embeds its
behaviour on the token shapes the parser meets: leading/trailing
whitespace is ignored, the empty string is `0`, an optional sign precedes
decimal digits with an optional fractional part, and anything else is
`NaN` (`none`).  (Exponent, hexadecimal and `Infinity` forms are not
modelled; no claim below depends on the numeric value of such tokens.)
Values are exact rationals; every token form that the claims evaluate is
exactly representable as a double. -/

/-- JavaScript `String.prototype.trim` on a character list: strip leading
and trailing whitespace. -/
def jsTrimChars (cs : List Char) : List Char :=
  ((cs.dropWhile Char.isWhitespace).reverse.dropWhile Char.isWhitespace).reverse

/-- JavaScript `String.prototype.split` with a one-character separator on a
character list: `"a,b" → ["a", "b"]`, `"" → [""]`, separators at the ends
produce empty pieces. -/
def jsSplit (sep : Char) : List Char → List (List Char)
  | [] => [[]]
  | c :: rest =>
      if c = sep then [] :: jsSplit sep rest
      else
        match jsSplit sep rest with
        | [] => [[c]]
        | t :: ts => (c :: t) :: ts

/-- Decimal value of a digit list (most significant first). -/
def digitsVal (cs : List Char) : Nat :=
  cs.foldl (fun acc c => acc * 10 + (c.toNat - '0'.toNat)) 0

/-- JavaScript `Number()` on a token, as an exact rational; `none` is
`NaN`.  The conversion trims whitespace, maps the empty string to `0`, and
accepts an optional sign followed by decimal digits with an optional
fractional part.  (Exponent, hexadecimal and `Infinity` forms are not
modelled; no claim below depends on the numeric value of such tokens, and
every token the claims evaluate is exactly representable as a double.) -/
def jsNumberQ (s : List Char) : Option ℚ :=
  let t := jsTrimChars s
  match t with
  | [] => some 0
  | _ =>
    let sgn : ℚ := match t with
      | '-' :: _ => -1
      | _ => 1
    let body : List Char := match t with
      | '-' :: cs => cs
      | '+' :: cs => cs
      | cs => cs
    let intPart := body.takeWhile (· ≠ '.')
    let rest := body.dropWhile (· ≠ '.')
    let fracPart : Option (List Char) := match rest with
      | [] => some []
      | _ :: fs => if fs.contains '.' then none else some fs
    match fracPart with
    | none => none
    | some frac =>
      if intPart.all Char.isDigit ∧ frac.all Char.isDigit ∧ (intPart ++ frac) ≠ [] then
        some (sgn * ((digitsVal intPart : ℚ) + (digitsVal frac : ℚ) / 10 ^ frac.length))
      else none

/-- The `for (let i = start; i <= end; i++)` push loop of the range branch:
the values `start, start + 1, …` up to `end`, filtered to `[1, 247]`. -/
def rangePush (start stop : ℚ) : List ℚ :=
  ((List.range ((stop - start).floor.toNat + 1)).map (fun k => start + k)).filter
    (fun i => decide (1 ≤ i) && decide (i ≤ 247))

/-- Processing of one comma-separated token (lines 355–372): a token
containing `-` is treated as a range `start-end` (extra `-`-separated
pieces are ignored by the destructuring; a missing second piece is
`undefined`, hence `NaN`); otherwise the token is a single address pushed
when inside `[1, 247]`. -/
def parsePart (acc : List ℚ) (part : List Char) : List ℚ :=
  if part.contains '-' then
    match jsSplit '-' part with
    | [] => acc
    | p0 :: ps =>
      let start := jsNumberQ p0
      let stop := match ps with
        | [] => none
        | p1 :: _ => jsNumberQ p1
      match start, stop with
      | some s, some e => if s ≤ e then acc ++ rangePush s e else acc
      | _, _ => acc
  else
    match jsNumberQ part with
    | some addr => if 1 ≤ addr ∧ addr ≤ 247 then acc ++ [addr] else acc
    | none => acc

/-- `Sun2000.parseAddressList(addressString)` (lines 351–376): split on
commas, trim, process each token, then de-duplicate preserving first
occurrences (`[...new Set(addresses)]`) and sort ascending
(`.sort((a, b) => a - b)`). -/
def parseAddressList (addressString : String) : List ℚ :=
  let parts := (jsSplit ',' addressString.toList).map jsTrimChars
  let addresses := parts.foldl parsePart []
  List.insertionSort (· ≤ ·) addresses.eraseDups

/-! ## Concrete instances used by the claim theorems -/

/-- A client whose remap-block reads (unit id 0) all succeed with
all-ones register data and whose direct per-inverter reads (non-zero unit
id) all reject: it exercises `readInverterData`'s catch after the remapped
telemetry has been merged. -/
def clientC1 : Client := fun _address count unitId =>
  if unitId = 0 then
    Except.ok { success := true, data := some (List.replicate count 1) }
  else
    Except.error "Connection reset"

/-- A per-device reader that rejects exactly for the device with unit id 2
and returns a populated record otherwise. -/
def exampleReader : DeviceSpec → Except String InverterRecord := fun device =>
  if device.unitId = 2 then Except.error "read failed"
  else
    Except.ok
      { unitId := device.deviceAddress, deviceName := device.deviceName,
        activePower := some 1, alarm1 := some 0, alarmTexts := some [] }

/-- A client that answers the alarm-block read (register 32008) with three
zero words and every other read with zero-filled data. -/
def clientC8 : Client := fun address count _unitId =>
  if address = 32008 then
    Except.ok { success := true, data := some [0, 0, 0] }
  else
    Except.ok { success := true, data := some (List.replicate count 0) }

end HuaweiSolar

namespace HuaweiSolar

/-! # Theorems -/

/-! ## Claim C3: `combineU32RegistersLE` and the unsigned 32-bit range -/

/-- C3 (code bug evaluation): the claim says `combineU32RegistersLE(lo, hi)`
returns the unsigned value `lo * 2^16 + hi` in `[0, 2^32 - 1]`, and the
source's own doc comment says "32-bit unsigned"; but the JavaScript
expression `(lowWord << 16) | highWord` is signed 32-bit arithmetic, so for
`lo = 32768, hi = 0` the code returns `-2147483648` instead of
`2147483648`. -/
theorem C3_combineU32_signed_overflow :
    combineU32RegistersLE 32768 0 = -2147483648 ∧
    combineU32RegistersLE 32768 0 < 0 := by
  constructor <;> decide

/-! ## Claim C6: disjointness of remapped register ranges -/

/-- C6: for distinct device addresses `a ≠ b` in `[1, 247]`, the remapped
register ranges `[base(a), base(a) + 24]` and `[base(b), base(b) + 24]`
computed by `calculateInverterBaseAddress` (equivalently, by
`getRemappedRegister` at offsets 0..24) are disjoint: no register address
lies in both. -/
theorem C6_remap_ranges_disjoint (a b x : Nat)
    (ha1 : 1 ≤ a) (ha2 : a ≤ 247) (hb1 : 1 ≤ b) (hb2 : b ≤ 247) (hab : a ≠ b) :
    (∀ off, getRemappedRegister a off = calculateInverterBaseAddress a + off) ∧
    ¬(calculateInverterBaseAddress a ≤ x ∧ x ≤ calculateInverterBaseAddress a + 24 ∧
      calculateInverterBaseAddress b ≤ x ∧ x ≤ calculateInverterBaseAddress b + 24) := by
  constructor
  · intro off
    rfl
  · unfold calculateInverterBaseAddress
    omega

/-- C6 witness: the theorem applied at the concrete pair `a = 1, b = 2` and
the address `x = 51010` inside device 1's range. -/
theorem C6_remap_ranges_disjoint_witness :
    (1 ≤ 1 ∧ 1 ≤ 247 ∧ 1 ≤ 2 ∧ 2 ≤ 247 ∧ (1 : Nat) ≠ 2) ∧
    ¬(calculateInverterBaseAddress 1 ≤ 51010 ∧ 51010 ≤ calculateInverterBaseAddress 1 + 24 ∧
      calculateInverterBaseAddress 2 ≤ 51010 ∧ 51010 ≤ calculateInverterBaseAddress 2 + 24) :=
  ⟨by decide,
   (C6_remap_ranges_disjoint 1 2 51010 (by decide) (by decide) (by decide) (by decide)
     (by decide)).2⟩

/-! ## Claim C2: unit-id restoration on every exit path -/

/-- Once inside the retry loop with an override supplied, every exit of the
loop resets the active unit id to the configured default. -/
theorem rhrLoop_restores_activeId (cfg : ModbusConnectionConfig) (tr : Transport)
    (u : Nat) : ∀ (fuel attempt : Nat) (st : ClientState),
    ((rhrLoop cfg tr (some u) st attempt fuel).st).activeId = cfg.unitId := by
  intro fuel
  induction fuel with
  | zero =>
      intro attempt st
      unfold rhrLoop
      cases tr.attempt attempt <;> simp
  | succ n ih =>
      intro attempt st
      unfold rhrLoop
      cases tr.attempt attempt <;> simp [ih]

/-- C2: when a unit-id override is supplied to `readHoldingRegisters` and
the connection's active unit id equals the configured default on entry, it
equals the configured default again on every exit path — successful read,
transport failure after exhausting retries, and failure to connect. -/
theorem C2_unit_id_restored (cfg : ModbusConnectionConfig) (tr : Transport)
    (st : ClientState) (address count u : Nat)
    (h : st.activeId = cfg.unitId) :
    ((readHoldingRegistersClient cfg tr st address count (some u)).st).activeId =
      cfg.unitId := by
  unfold readHoldingRegistersClient
  by_cases hc : st.connected <;> by_cases hk : tr.connectOk <;>
    simp [hc, hk, rhrLoop_restores_activeId, h]

/-- C2 witness: the theorem at a concrete configuration (default unit id 1,
override 7, transport failing every attempt after a successful connect). -/
theorem C2_unit_id_restored_witness :
    (({ activeId := 1, connected := false } : ClientState)).activeId =
      ({ host := "h", port := 502, unitId := 1, timeout := 1000, retries := 2 } :
        ModbusConnectionConfig).unitId ∧
    ((readHoldingRegistersClient
        { host := "h", port := 502, unitId := 1, timeout := 1000, retries := 2 }
        { connectOk := true, attempt := fun _ => Except.error "timeout" }
        { activeId := 1, connected := false } 40000 1 (some 7)).st).activeId =
      ({ host := "h", port := 502, unitId := 1, timeout := 1000, retries := 2 } :
        ModbusConnectionConfig).unitId :=
  ⟨rfl,
   C2_unit_id_restored
     { host := "h", port := 502, unitId := 1, timeout := 1000, retries := 2 }
     { connectOk := true, attempt := fun _ => Except.error "timeout" }
     { activeId := 1, connected := false } 40000 1 7 rfl⟩

/-! ## Claim C4: retry count, backoff schedule and failure message -/

/-- Behaviour of the retry loop when every transport attempt fails: one
attempt per unit of fuel plus one, a backoff wait of `2^attempt * 100`
milliseconds after every attempt but the last, and the final failure
message built from the configured retry count and the last error. -/
theorem rhrLoop_all_fail (cfg : ModbusConnectionConfig) (tr : Transport)
    (uid : Option Nat) (msg : Nat → String)
    (hfail : ∀ n, tr.attempt n = Except.error (msg n)) :
    ∀ (fuel attempt : Nat) (st : ClientState),
    (rhrLoop cfg tr uid st attempt fuel).attempts = fuel + 1 ∧
    (rhrLoop cfg tr uid st attempt fuel).waits =
      (List.range fuel).map (fun i => 2 ^ (attempt + i) * 100) ∧
    (rhrLoop cfg tr uid st attempt fuel).res.success = false ∧
    (rhrLoop cfg tr uid st attempt fuel).res.error =
      some ("Failed after " ++ toString (cfg.retries + 1) ++ " attempts: " ++
            msg (attempt + fuel)) := by
  intro fuel
  induction fuel with
  | zero =>
      intro attempt st
      unfold rhrLoop
      rw [hfail attempt]
      simp
  | succ n ih =>
      intro attempt st
      unfold rhrLoop
      rw [hfail attempt]
      refine ⟨by simp [(ih (attempt + 1) st).1], ?_, by simp [(ih (attempt + 1) st).2.2.1],
              ?_⟩
      · have hw := (ih (attempt + 1) st).2.1
        simp only [hw, List.range_succ_eq_map, List.map_cons, List.map_map]
        refine List.cons_eq_cons.mpr ⟨by rw [Nat.add_zero], ?_⟩
        apply List.map_congr_left
        intro i _
        have he : attempt + 1 + i = attempt + (i + 1) := by omega
        simp [Function.comp, he]
      · have hm := (ih (attempt + 1) st).2.2.2
        have he : attempt + 1 + n = attempt + (n + 1) := by omega
        rw [he] at hm
        simpa using hm

/-- C4: for a connected client with configured retry count `r`, if every
transport attempt fails, `readHoldingRegisters` makes exactly `r + 1`
attempts, waits `100 * 2^attempt` milliseconds between consecutive
attempts, and returns a `{success: false}` result whose message names the
number of attempts, without throwing (the embedding is a total function
returning a result value). -/
theorem C4_retry_exhaustion (cfg : ModbusConnectionConfig) (tr : Transport)
    (st : ClientState) (address count : Nat) (uid : Option Nat) (msg : Nat → String)
    (hconn : st.connected = true)
    (hfail : ∀ n, tr.attempt n = Except.error (msg n)) :
    (readHoldingRegistersClient cfg tr st address count uid).attempts =
      cfg.retries + 1 ∧
    (readHoldingRegistersClient cfg tr st address count uid).waits =
      (List.range cfg.retries).map (fun i => 100 * 2 ^ i) ∧
    (readHoldingRegistersClient cfg tr st address count uid).res.success = false ∧
    (readHoldingRegistersClient cfg tr st address count uid).res.error =
      some ("Failed after " ++ toString (cfg.retries + 1) ++ " attempts: " ++
            msg cfg.retries) := by
  have hloop := rhrLoop_all_fail cfg tr uid msg hfail cfg.retries 0
  unfold readHoldingRegistersClient
  rw [if_pos hconn]
  cases uid with
  | none =>
      refine ⟨(hloop st).1, ?_, (hloop st).2.2.1, ?_⟩
      · rw [(hloop st).2.1]
        apply List.map_congr_left
        intro i _
        simp [Nat.mul_comm]
      · rw [(hloop st).2.2.2, Nat.zero_add]
  | some u =>
      refine ⟨(hloop _).1, ?_, (hloop _).2.2.1, ?_⟩
      · rw [(hloop _).2.1]
        apply List.map_congr_left
        intro i _
        simp [Nat.mul_comm]
      · rw [(hloop _).2.2.2, Nat.zero_add]

/-- C4 witness: retry count 2, every attempt failing with "timeout": three
attempts, waits `[100, 200]`, and the message "Failed after 3 attempts:
timeout". -/
theorem C4_retry_exhaustion_witness :
    (({ activeId := 1, connected := true } : ClientState)).connected = true ∧
    (readHoldingRegistersClient
        { host := "h", port := 502, unitId := 1, timeout := 1000, retries := 2 }
        { connectOk := true, attempt := fun _ => Except.error "timeout" }
        { activeId := 1, connected := true } 40000 1 none).attempts = 3 ∧
    (readHoldingRegistersClient
        { host := "h", port := 502, unitId := 1, timeout := 1000, retries := 2 }
        { connectOk := true, attempt := fun _ => Except.error "timeout" }
        { activeId := 1, connected := true } 40000 1 none).waits = [100, 200] ∧
    (readHoldingRegistersClient
        { host := "h", port := 502, unitId := 1, timeout := 1000, retries := 2 }
        { connectOk := true, attempt := fun _ => Except.error "timeout" }
        { activeId := 1, connected := true } 40000 1 none).res.error =
      some "Failed after 3 attempts: timeout" := by
  have h := C4_retry_exhaustion
    { host := "h", port := 502, unitId := 1, timeout := 1000, retries := 2 }
    { connectOk := true, attempt := fun _ => Except.error "timeout" }
    { activeId := 1, connected := true } 40000 1 none (fun _ => "timeout") rfl
    (fun _ => rfl)
  exact ⟨rfl, h.1, by rw [h.2.1]; decide, h.2.2.2⟩

/-! ## Claim C5: alarm decoding -/

/-- The truthiness test `alarm & (1 << k)` of the source is exactly "bit
`k` of `alarm` is set". -/
theorem and_one_shiftLeft_ne_zero (a k : Nat) :
    (a &&& (1 <<< k) ≠ 0) ↔ a.testBit k = true := by
  rw [Nat.one_shiftLeft, Nat.and_two_pow]
  cases h : a.testBit k <;> simp [(Nat.two_pow_pos k).ne']

/-- The per-register `if`-chain collects, in ascending bit order, exactly
the table entries of the set bits. -/
theorem alarmChain_eq_filter (a : Nat) : ∀ (table : List String) (k : Nat),
    alarmChain a k table =
      ((List.range table.length).filter (fun i => a.testBit (i + k))).map
        (fun i => table.getD i "") := by
  intro table
  induction table with
  | nil => intro k; simp [alarmChain]
  | cons s rest ih =>
      intro k
      rw [alarmChain, ih (k + 1), List.length_cons, List.range_succ_eq_map]
      have hf : List.filter ((fun i => a.testBit (i + k)) ∘ Nat.succ) (List.range rest.length)
          = List.filter (fun i => a.testBit (i + (k + 1))) (List.range rest.length) := by
        apply List.filter_congr
        intro i _
        have he : i + 1 + k = i + (k + 1) := by omega
        simp [Function.comp, he]
      have hmap : List.map (fun i => (s :: rest).getD i "")
            (List.map Nat.succ
              (List.filter (fun i => a.testBit (i + (k + 1))) (List.range rest.length)))
          = List.map (fun i => rest.getD i "")
            (List.filter (fun i => a.testBit (i + (k + 1))) (List.range rest.length)) := by
        rw [List.map_map]
        apply List.map_congr_left
        intro i _
        simp [Function.comp]
      rw [List.filter_cons, Nat.zero_add, List.filter_map, hf]
      by_cases hb : a.testBit k = true
      · rw [if_pos ((and_one_shiftLeft_ne_zero a k).mpr hb)]
        rw [if_pos hb, List.map_cons, List.getD_cons_zero, hmap, List.singleton_append]
      · rw [if_neg (fun hne => hb ((and_one_shiftLeft_ne_zero a k).mp hne))]
        rw [if_neg hb, hmap, List.nil_append]

/-- C5: the decoded alarm-text list contains exactly one formatted entry
per set bit, ordered by ascending bit position within each register, with
register 1's entries before register 2's before register 3's (the
`alarmTextsSpec` form); in particular `alarm1 = 16642` (bits 1, 8, 14)
with `alarm2 = alarm3 = 0` yields exactly the three corresponding
descriptions in ascending bit order and no others. -/
theorem C5_alarm_decode :
    (∀ alarm1 alarm2 alarm3 : Nat,
      alarmTextsOf alarm1 alarm2 alarm3 = alarmTextsSpec alarm1 alarm2 alarm3) ∧
    alarmTextsOf 16642 0 0 =
      ["DC Arc Fault (Major)", "Grid Undervoltage (Major)",
       "Output Overcurrent (Major)"] := by
  constructor
  · intro alarm1 alarm2 alarm3
    unfold alarmTextsOf alarmTextsSpec
    rw [alarmChain_eq_filter, alarmChain_eq_filter, alarmChain_eq_filter]
    simp [alarmTable1, alarmTable2, alarmTable3]
  · decide

/-! ## Claim C7: per-device failure isolation in `readMultipleInverters` -/

/-- C7: `readMultipleInverters` returns one record per input device, in
input order — each position holding the device's own read result, with a
rejection converted in place into the `{unitId, deviceName, error}` record
— so one device's failure neither removes nor reorders the others; in
particular, three devices of which #2 rejects yield a 3-element list in
original order with only #2 as an error record. -/
theorem C7_batch_order_and_isolation :
    (∀ (readInverter : DeviceSpec → Except String InverterRecord)
       (devices : List DeviceSpec),
      readMultipleInverters readInverter devices =
        devices.map (fun device =>
          match readInverter device with
          | .ok inverterData => inverterData
          | .error msg =>
              { unitId := device.unitId, deviceName := device.deviceName,
                error := some msg }) ∧
      (readMultipleInverters readInverter devices).length = devices.length) ∧
    readMultipleInverters exampleReader
      [{ unitId := 1, deviceAddress := 11, deviceName := some "INV-1" },
       { unitId := 2, deviceAddress := 12, deviceName := some "INV-2" },
       { unitId := 3, deviceAddress := 13, deviceName := some "INV-3" }] =
      [{ unitId := 11, deviceName := some "INV-1", activePower := some 1,
         alarm1 := some 0, alarmTexts := some [] },
       { unitId := 2, deviceName := some "INV-2", error := some "read failed" },
       { unitId := 13, deviceName := some "INV-3", activePower := some 1,
         alarm1 := some 0, alarmTexts := some [] }] := by
  constructor
  · intro readInverter devices
    have hmap : readMultipleInverters readInverter devices =
        devices.map (fun device =>
          match readInverter device with
          | .ok inverterData => inverterData
          | .error msg =>
              { unitId := device.unitId, deviceName := device.deviceName,
                error := some msg }) := by
      induction devices with
      | nil => rfl
      | cons d rest ih => rw [readMultipleInverters, ih, List.map_cons]
    exact ⟨hmap, by rw [hmap, List.length_map]⟩
  · rfl

/-! ## Claim C10: unit id 0 behaves as absent in the discovery helpers -/

/-- C10: for `readDeviceName`, `readConnectionStatus`, `readDeviceAddress`
and `readPortNumber`, an explicit unit id of 0 behaves identically to no
unit id at all — `unitId || this.unitId` treats 0 as absent and
substitutes the configured default — and whenever the configured default
is non-zero, the selected target unit id is never 0. -/
theorem C10_zero_unit_id_as_absent (client : Client) (selfUnitId : Nat) :
    readDeviceName client selfUnitId (some 0) = readDeviceName client selfUnitId none ∧
    readConnectionStatus client selfUnitId (some 0) =
      readConnectionStatus client selfUnitId none ∧
    readDeviceAddress client selfUnitId (some 0) =
      readDeviceAddress client selfUnitId none ∧
    readPortNumber client selfUnitId (some 0) = readPortNumber client selfUnitId none ∧
    (∀ unitId : Option Nat, selfUnitId ≠ 0 → smartTargetUnitId unitId selfUnitId ≠ 0) := by
  refine ⟨rfl, rfl, rfl, rfl, ?_⟩
  intro unitId hself
  cases unitId with
  | none => exact hself
  | some u =>
      by_cases hu : u = 0 <;> simp [smartTargetUnitId, hu, hself]

/-- C10 witness: the theorem at a concrete client and the default unit id
3, with the non-zero-default hypothesis discharged at `unitId = some 0`. -/
theorem C10_zero_unit_id_as_absent_witness :
    readDeviceName (fun _ _ _ => Except.ok { success := false }) 3 (some 0) =
      readDeviceName (fun _ _ _ => Except.ok { success := false }) 3 none ∧
    ((3 : Nat) ≠ 0 ∧ smartTargetUnitId (some 0) 3 ≠ 0) :=
  ⟨(C10_zero_unit_id_as_absent (fun _ _ _ => Except.ok { success := false }) 3).1,
   by decide,
   (C10_zero_unit_id_as_absent (fun _ _ _ => Except.ok { success := false }) 3).2.2.2.2
     (some 0) (by decide)⟩

/-! ## Claim C8: the "always include alarm texts" toggle

Helper lemmas: the remapped pass never touches `alarmTexts`; a category
block whose category is not requested is the identity; the alarm and
fault-code reads evaluate under the claim's hypotheses. -/

/-- The remapped-register pass never assigns `alarmTexts`. -/
theorem readRemappedData_alarmTexts (client : Client) (a : Nat) (r : InverterRecord) :
    (readRemappedData client a r).alarmTexts = r.alarmTexts := by
  unfold readRemappedData
  repeat' split
  all_goals rfl

/-- An unrequested `device` category block is the identity. -/
theorem deviceCategoryStep_skip (client : Client) (a : Nat) (cats : List String)
    (r : InverterRecord) (h : cats.contains "device" = false) :
    deviceCategoryStep client a cats r = .ok r := by
  unfold deviceCategoryStep
  rw [h]
  rfl

/-- An unrequested `power` category block is the identity. -/
theorem powerCategoryStep_skip (client : Client) (a : Nat) (cats : List String)
    (r : InverterRecord) (h : cats.contains "power" = false) :
    powerCategoryStep client a cats r = .ok r := by
  unfold powerCategoryStep
  rw [h]
  rfl

/-- An unrequested `voltages` category block is the identity. -/
theorem voltagesCategoryStep_skip (client : Client) (a : Nat) (cats : List String)
    (r : InverterRecord) (h : cats.contains "voltages" = false) :
    voltagesCategoryStep client a cats r = .ok r := by
  unfold voltagesCategoryStep
  rw [h]
  rfl

/-- An unrequested `currents` category block is the identity. -/
theorem currentsCategoryStep_skip (client : Client) (a : Nat) (cats : List String)
    (r : InverterRecord) (h : cats.contains "currents" = false) :
    currentsCategoryStep client a cats r = .ok r := by
  unfold currentsCategoryStep
  rw [h]
  rfl

/-- An unrequested `strings` category block is the identity. -/
theorem stringsCategoryStep_skip (client : Client) (a : Nat) (cats : List String)
    (r : InverterRecord) (h : cats.contains "strings" = false) :
    stringsCategoryStep client a cats r = .ok r := by
  unfold stringsCategoryStep
  rw [h]
  rfl

/-- An unrequested `status` category block is the identity. -/
theorem statusCategoryStep_skip (client : Client) (a : Nat) (cats : List String)
    (r : InverterRecord) (h : cats.contains "status" = false) :
    statusCategoryStep client a cats r = .ok r := by
  unfold statusCategoryStep
  rw [h]
  rfl

/-- Decoding three all-zero alarm words yields the empty list. -/
theorem alarmTextsOf_zero : alarmTextsOf 0 0 0 = [] := by decide

/-- `readAlarms` on three zero words: zero raw values and an empty decoded
list. -/
theorem readAlarms_zero (client : Client) (a : Nat)
    (h1 : client 32008 3 a =
      Except.ok { success := true, data := some [0, 0, 0] }) :
    readAlarms client a =
      .ok { alarm1 := some 0, alarm2 := some 0, alarm3 := some 0,
            alarmTexts := some [] } := by
  unfold readAlarms
  rw [h1]
  rfl

/-- `readFaultCode` does not reject when the underlying register read
returns normally. -/
theorem readFaultCode_ok (client : Client) (a : Nat)
    (fcRes : ModbusReadResult (List Nat))
    (h2 : client 32090 1 a = Except.ok fcRes) :
    ∃ fc : Option Nat, readFaultCode client a = .ok fc := by
  unfold readFaultCode readU16
  rw [h2]
  dsimp only [Bind.bind, Except.bind]
  by_cases hcond : (fcRes.success = false ∨ fcRes.data = none ∨
      (fcRes.data.getD []).length = 0)
  · rw [if_pos hcond]
    exact ⟨_, rfl⟩
  · rw [if_neg hcond]
    exact ⟨_, rfl⟩

/-- The `alarms` category block on three zero alarm words: it returns
normally, and the merged `alarmTexts` is the empty list when the toggle is
set and is left untouched otherwise. -/
theorem alarmsCategoryStep_zero (client : Client) (a : Nat) (toggle : Bool)
    (r : InverterRecord) (fcRes : ModbusReadResult (List Nat))
    (h1 : client 32008 3 a =
      Except.ok { success := true, data := some [0, 0, 0] })
    (h2 : client 32090 1 a = Except.ok fcRes) :
    ∃ r', alarmsCategoryStep client a ["alarms"] toggle r = .ok r' ∧
      r'.alarmTexts = (if toggle then some [] else r.alarmTexts) := by
  obtain ⟨fc, hfc⟩ := readFaultCode_ok client a fcRes h2
  unfold alarmsCategoryStep
  rw [if_pos (show (["alarms"] : List String).contains "alarms" = true from rfl)]
  rw [readAlarms_zero client a h1]
  dsimp only [Bind.bind, Except.bind]
  rw [hfc]
  dsimp only [Bind.bind, Except.bind, Pure.pure, Except.pure]
  have hcondtrue : ((true = true ∨
      ∃ l, (some [] : Option (List String)) = some l ∧ l.length > 0)) := Or.inl rfl
  have hcondfalse : ¬((false = true ∨
      ∃ l, (some [] : Option (List String)) = some l ∧ l.length > 0)) := by
    rintro (h | ⟨l, hl, hlen⟩)
    · exact absurd h (by decide)
    · cases hl
      simp at hlen
  cases toggle
  · rw [if_neg hcondfalse]
    cases fc
    · exact ⟨_, rfl, rfl⟩
    · exact ⟨_, rfl, rfl⟩
  · rw [if_pos hcondtrue]
    cases fc
    · exact ⟨_, rfl, rfl⟩
    · exact ⟨_, rfl, rfl⟩

/-- C8: when the `alarms` category is read and all three alarm words are
zero, the returned record contains `alarmTexts = []` if the "always
include alarm texts" toggle is true, and no `alarmTexts` field at all if
the toggle is false. -/
theorem C8_always_include_alarm_texts (client : Client) (a : Nat)
    (fcRes : ModbusReadResult (List Nat))
    (h1 : client 32008 3 a =
      Except.ok { success := true, data := some [0, 0, 0] })
    (h2 : client 32090 1 a = Except.ok fcRes) :
    (readInverterData client a none (some ["alarms"]) true).alarmTexts = some [] ∧
    (readInverterData client a none (some ["alarms"]) false).alarmTexts = none := by
  have hskip : ∀ toggle : Bool,
      readInverterData client a none (some ["alarms"]) toggle =
        match alarmsCategoryStep client a ["alarms"] toggle
            (readRemappedData client a { unitId := a, deviceName := none }) with
        | .error msg =>
            { readRemappedData client a { unitId := a, deviceName := none } with
              error := some msg }
        | .ok result => result := by
    intro toggle
    unfold readInverterData
    dsimp only
    rw [deviceCategoryStep_skip client a _ _ (by decide)]
    dsimp only
    rw [powerCategoryStep_skip client a _ _ (by decide)]
    dsimp only
    rw [voltagesCategoryStep_skip client a _ _ (by decide)]
    dsimp only
    rw [currentsCategoryStep_skip client a _ _ (by decide)]
    dsimp only
    rw [stringsCategoryStep_skip client a _ _ (by decide)]
    dsimp only
    rw [statusCategoryStep_skip client a _ _ (by decide)]
    rfl
  rw [hskip true, hskip false]
  obtain ⟨r1, hr1, ht1⟩ := alarmsCategoryStep_zero client a true
    (readRemappedData client a { unitId := a, deviceName := none }) fcRes h1 h2
  obtain ⟨r0, hr0, ht0⟩ := alarmsCategoryStep_zero client a false
    (readRemappedData client a { unitId := a, deviceName := none }) fcRes h1 h2
  rw [hr1, hr0]
  constructor
  · simpa using ht1
  · rw [if_neg (by decide : ¬(false = true))] at ht0
    rw [ht0, readRemappedData_alarmTexts]

/-- C8 witness: the theorem at the concrete client `clientC8` and device
address 5, hypotheses discharged by computation. -/
theorem C8_always_include_alarm_texts_witness :
    (readInverterData clientC8 5 none (some ["alarms"]) true).alarmTexts = some [] ∧
    (readInverterData clientC8 5 none (some ["alarms"]) false).alarmTexts = none :=
  C8_always_include_alarm_texts clientC8 5 { success := true, data := some [0] }
    rfl rfl

/-! ## Claim C1: the error field versus telemetry fields -/

/-- When the remap-block power read returns successfully with at least nine
registers, the remapped pass merges `activePower`, and the later remapped
reads (whatever their outcomes) leave it in place. -/
theorem readRemappedData_activePower_ok (client : Client) (a : Nat) (r : InverterRecord)
    (powerResult : ModbusReadResult (List Nat))
    (h1 : client (getRemappedRegister a 0) 9 0 = Except.ok powerResult)
    (h2 : powerResult.success = true) (h3 : powerResult.data ≠ none)
    (h4 : (powerResult.data.getD []).length ≥ 9) :
    (readRemappedData client a r).activePower =
      some ((combineI32RegistersLE ((powerResult.data.getD []).getD 0 0)
             ((powerResult.data.getD []).getD 1 0) : ℚ) / 1000) := by
  unfold readRemappedData
  rw [h1]
  dsimp only
  rw [if_pos ⟨h2, h3, h4⟩]
  repeat' split
  all_goals rfl

/-- When the model read rejects, the whole `device` category block
rejects with that message (it is the first read of the block). -/
theorem deviceCategoryStep_error (client : Client) (a : Nat) (r : InverterRecord)
    (msg : String) (h5 : client 30000 15 a = Except.error msg) :
    deviceCategoryStep client a defaultCategories r = .error msg := by
  unfold deviceCategoryStep readDeviceModel readString
  rw [if_pos (show (defaultCategories).contains "device" = true from rfl)]
  rw [h5]
  rfl

/-- C1 counterexample: at the concrete client `clientC1` (remap block
readable, direct reads rejecting) the record returned by
`readInverterData` carries the `error` field AND a populated telemetry
field (`activePower`, merged by the always-run remapped pass before the
failure) — refuting "a record that carries an error field never also
carries telemetry fields". -/
theorem C1_error_and_telemetry_coexist_counterexample :
    (readInverterData clientC1 5 none none false).error = some "Connection reset" ∧
    (readInverterData clientC1 5 none none false).activePower.isSome = true := by
  decide

/-- C1 (amended): the `error` field is attached to the record as merged so
far, so a failing category read yields a record with both `error` and the
telemetry fields merged before the failure — here, any successful
remap-block power read followed by a rejecting `device` category read
leaves `activePower` populated alongside `error`. -/
theorem C1_error_keeps_previously_merged_fields (client : Client) (a : Nat)
    (name : Option String) (toggle : Bool)
    (powerResult : ModbusReadResult (List Nat)) (msg : String)
    (h1 : client (getRemappedRegister a 0) 9 0 = Except.ok powerResult)
    (h2 : powerResult.success = true) (h3 : powerResult.data ≠ none)
    (h4 : (powerResult.data.getD []).length ≥ 9)
    (h5 : client 30000 15 a = Except.error msg) :
    (readInverterData client a name none toggle).error = some msg ∧
    (readInverterData client a name none toggle).activePower =
      some ((combineI32RegistersLE ((powerResult.data.getD []).getD 0 0)
             ((powerResult.data.getD []).getD 1 0) : ℚ) / 1000) := by
  unfold readInverterData
  dsimp only [Option.getD]
  rw [deviceCategoryStep_error client a _ msg h5]
  dsimp only
  exact ⟨rfl, readRemappedData_activePower_ok client a _ powerResult h1 h2 h3 h4⟩

/-- C1 witness: the amended theorem applied at `clientC1`, device address
5, with all hypotheses discharged by computation. -/
theorem C1_error_keeps_previously_merged_fields_witness :
    (readInverterData clientC1 5 none none false).error = some "Connection reset" ∧
    (readInverterData clientC1 5 none none false).activePower =
      some ((combineI32RegistersLE 1 1 : ℚ) / 1000) :=
  C1_error_keeps_previously_merged_fields clientC1 5 none false
    { success := true, data := some (List.replicate 9 1) } "Connection reset"
    rfl rfl (by decide) (by decide) rfl

/-! ## Claim C9: address-list parsing

Support lemmas: `List.eraseDups` keeps a subset of its input without
duplicates, every element pushed by `parsePart` is bounds-checked, and an
insertion sort of a duplicate-free list is strictly ascending. -/

/-- Elements of the `eraseDups` accumulator loop come from its two
arguments. -/
theorem eraseDups_loop_mem (x : ℚ) :
    ∀ (as bs : List ℚ), x ∈ List.eraseDups.loop as bs → x ∈ as ∨ x ∈ bs := by
  intro as
  induction as with
  | nil =>
      intro bs h
      rw [List.eraseDups.loop] at h
      exact Or.inr (List.mem_reverse.mp h)
  | cons a rest ih =>
      intro bs h
      rw [List.eraseDups.loop] at h
      cases helem : bs.elem a with
      | true =>
          rw [helem] at h
          rcases ih bs h with h1 | h2
          · exact Or.inl (List.mem_cons_of_mem a h1)
          · exact Or.inr h2
      | false =>
          rw [helem] at h
          rcases ih (a :: bs) h with h1 | h2
          · exact Or.inl (List.mem_cons_of_mem a h1)
          · rcases List.mem_cons.mp h2 with h3 | h4
            · exact Or.inl (h3 ▸ List.mem_cons_self a rest)
            · exact Or.inr h4

/-- The `eraseDups` accumulator loop preserves duplicate-freeness. -/
theorem eraseDups_loop_nodup :
    ∀ (as bs : List ℚ), bs.Nodup → (List.eraseDups.loop as bs).Nodup := by
  intro as
  induction as with
  | nil =>
      intro bs h
      rw [List.eraseDups.loop]
      exact List.nodup_reverse.mpr h
  | cons a rest ih =>
      intro bs h
      rw [List.eraseDups.loop]
      cases helem : bs.elem a with
      | true => exact ih bs h
      | false =>
          apply ih (a :: bs)
          refine List.nodup_cons.mpr ⟨?_, h⟩
          intro hmem
          rw [List.elem_iff.mpr hmem] at helem
          cases helem

/-- `eraseDups` returns a sublist of its input (membership-wise). -/
theorem eraseDups_mem (x : ℚ) (l : List ℚ) (h : x ∈ l.eraseDups) : x ∈ l := by
  rcases eraseDups_loop_mem x l [] h with h1 | h2
  · exact h1
  · cases h2

/-- `eraseDups` output is duplicate-free. -/
theorem eraseDups_nodup (l : List ℚ) : l.eraseDups.Nodup :=
  eraseDups_loop_nodup l [] List.nodup_nil

/-- Every value produced by the range-push loop lies in `[1, 247]`. -/
theorem rangePush_mem (x s e : ℚ) (h : x ∈ rangePush s e) : 1 ≤ x ∧ x ≤ 247 := by
  unfold rangePush at h
  have := List.of_mem_filter h
  simp only [Bool.and_eq_true, decide_eq_true_eq] at this
  exact this

/-- Every element `parsePart` adds to the accumulator lies in
`[1, 247]`. -/
theorem parsePart_mem (acc : List ℚ) (part : List Char) (x : ℚ)
    (h : x ∈ parsePart acc part) : x ∈ acc ∨ (1 ≤ x ∧ x ≤ 247) := by
  unfold parsePart at h
  dsimp only at h
  repeat' split at h
  all_goals try exact Or.inl h
  all_goals rcases List.mem_append.mp h with h1 | h2
  all_goals try exact Or.inl h1
  · exact Or.inr (rangePush_mem x _ _ h2)
  · rcases List.mem_singleton.mp h2 with rfl
    exact Or.inr (by assumption)

/-- Bounds invariant for the token fold. -/
theorem foldl_parsePart_mem (x : ℚ) :
    ∀ (parts : List (List Char)) (acc : List ℚ),
      x ∈ parts.foldl parsePart acc → x ∈ acc ∨ (1 ≤ x ∧ x ≤ 247) := by
  intro parts
  induction parts with
  | nil =>
      intro acc h
      exact Or.inl h
  | cons p ps ih =>
      intro acc h
      rw [List.foldl_cons] at h
      rcases ih (parsePart acc p) h with h1 | h2
      · exact parsePart_mem acc p x h1
      · exact Or.inr h2

/-- Insertion sort of a duplicate-free rational list is strictly
ascending. -/
theorem insertionSort_pairwise_lt (l : List ℚ) (h : l.Nodup) :
    List.Pairwise (· < ·) (List.insertionSort (· ≤ ·) l) := by
  have hs : List.Sorted (· ≤ ·) (List.insertionSort (· ≤ ·) l) :=
    List.sorted_insertionSort (· ≤ ·) l
  have hn : (List.insertionSort (· ≤ ·) l).Nodup :=
    ((List.perm_insertionSort (· ≤ ·) l).nodup_iff).mpr h
  exact hs.lt_of_le hn

unseal Rat.mul Rat.add Rat.inv Rat.sub in
/-- C9 counterexample: the claim says `parseAddressList` returns a list of
integers, but JavaScript `Number("1.5")` is `1.5`, which passes the
`[1, 247]` bounds check: `parseAddressList "1.5"` is `[3/2]`, not a list
of integers. -/
theorem C9_fractional_token_counterexample :
    parseAddressList "1.5" = [(3 : ℚ) / 2] ∧ ((3 : ℚ) / 2).den ≠ 1 := by
  decide

unseal Rat.mul Rat.add Rat.inv Rat.sub in
/-- C9 (amended): for every input string `parseAddressList` returns a
strictly ascending, duplicate-free list of values in the rational interval
`[1, 247]` (not necessarily integers — fractional numeric tokens
contribute fractional values); `"1-2,6,8"` yields `[1, 2, 6, 8]`,
`"12-15"` yields `[12, 13, 14, 15]`, and malformed tokens (non-numeric,
reversed range, out-of-range id) contribute no elements without aborting
the parse of the remaining tokens. -/
theorem C9_parse_properties (s : String) :
    List.Pairwise (· < ·) (parseAddressList s) ∧
    (∀ x ∈ parseAddressList s, 1 ≤ x ∧ x ≤ 247) ∧
    parseAddressList "1-2,6,8" = [1, 2, 6, 8] ∧
    parseAddressList "12-15" = [12, 13, 14, 15] ∧
    parseAddressList "abc,5,999,9-7" = [5] := by
  refine ⟨?_, ?_, by decide, by decide, by decide⟩
  · exact insertionSort_pairwise_lt _ (eraseDups_nodup _)
  · intro x hx
    unfold parseAddressList at hx
    dsimp only at hx
    have hx2 := ((List.perm_insertionSort (· ≤ ·) _).mem_iff).mp hx
    have hx3 := eraseDups_mem x _ hx2
    rcases foldl_parsePart_mem x _ [] hx3 with h1 | h2
    · cases h1
    · exact h2

unseal Rat.mul Rat.add Rat.inv Rat.sub in
/-- C9 witness: the bounds clause of the theorem applied at the concrete
input `"5"` and the element `5` of its parse. -/
theorem C9_parse_properties_witness :
    ((5 : ℚ) ∈ parseAddressList "5") ∧ (1 ≤ (5 : ℚ) ∧ (5 : ℚ) ≤ 247) :=
  ⟨by decide, (C9_parse_properties "5").2.1 5 (by decide)⟩

end HuaweiSolar
